import Mathlib

set_option maxRecDepth 4000

/-
Verification of the core of the video-bitrate calculator (`src/lib.ts`).

Modelling conventions:
- JavaScript numbers are modelled exactly: finite values as rationals (ℚ),
  the non-finite values Infinity, -Infinity and NaN produced by division by
  zero as explicit constructors of `JSNum`.  IEEE-754 rounding of finite
  intermediate results is idealized away: finite arithmetic is exact.  Every
  concrete value checked below renders identically under doubles and under
  exact arithmetic, and no universal theorem below asserts equality of
  rendered strings of computed finite values — the refinement-equivalence
  statement for `calculateFileSize` is made at the level of the exact
  quantities, where double rounding is out of scope by construction.
- Strings are Lean `String`s; the character-level work of the regular
  expressions is done on `String.data` (`List Char`) by hand-rolled matchers
  that implement exactly the source's patterns.
- Thrown `Error`s are `Except.error` carrying the message; the outer
  try/catch of `parseInput` renders a caught error as
  `"Error: " ++ message` (JavaScript `Error.prototype.toString`).
-/

/-- Model of JavaScript `String.prototype.trim`: drop leading and trailing
whitespace.  (`Char.isWhitespace` covers space, tab, CR, LF; the further
Unicode space characters JavaScript also trims do not occur in the claims.) -/
def jsTrim (cs : List Char) : List Char :=
  ((cs.dropWhile Char.isWhitespace).reverse.dropWhile Char.isWhitespace).reverse

/-- Split a character list at every character satisfying `p`, keeping empty
fragments — JavaScript `String.prototype.split` with a one-character
separator, generalized to a predicate. -/
def splitBy (p : Char → Bool) : List Char → List (List Char)
  | [] => [[]]
  | c :: cs =>
    if p c then [] :: splitBy p cs
    else
      match splitBy p cs with
      | [] => [[c]]
      | t :: ts => (c :: t) :: ts

/-- Replace the first occurrence of `pat` by nothing — JavaScript
`String.prototype.replace(pat, "")` with a string pattern. -/
def removeFirst (pat : List Char) : List Char → List Char
  | [] => []
  | c :: cs =>
    if pat.isPrefixOf (c :: cs) then (c :: cs).drop pat.length
    else c :: removeFirst pat cs

/-- `Array.prototype.join(", ")`. -/
def joinComma : List String → String
  | [] => ""
  | [s] => s
  | s :: rest => s ++ ", " ++ joinComma rest

/-- Numeric value of a run of decimal digits. -/
def digitsVal (ds : List Char) : ℕ :=
  ds.foldl (fun acc c => 10 * acc + (c.toNat - '0'.toNat)) 0

/-- Match `\d+` at the front: the digits and the rest, or `none` when the
first character is not a digit. -/
def chompDigits (cs : List Char) : Option (List Char × List Char) :=
  match cs.span Char.isDigit with
  | ([], _) => none
  | (ds, rest) => some (ds, rest)

/-- Match `\d+(\.\d+)?` at the front, returning the exact value of the
matched number (`parseFloat` of the match) and the rest.  A dot not followed
by a digit is left unconsumed, since the optional fraction group then fails
and none of the unit suffixes begins with a dot. -/
def chompNumber (cs : List Char) : Option (ℚ × List Char) :=
  match chompDigits cs with
  | none => none
  | some (ds, rest) =>
    match rest with
    | '.' :: r2 =>
      match chompDigits r2 with
      | some (fs, r3) =>
        some ((digitsVal ds : ℚ) + (digitsVal fs : ℚ) / (10 : ℚ) ^ fs.length, r3)
      | none => some ((digitsVal ds : ℚ), rest)
    | _ => some ((digitsVal ds : ℚ), rest)

def fileSizeSuffixes : List (List Char) :=
  ["B".data, "KB".data, "MB".data, "GB".data, "TB".data]

def bitRateSuffixes : List (List Char) :=
  ["bps".data, "kbps".data, "Mbps".data, "Gbps".data, "k".data, "M".data, "G".data]

/-- Classifier pattern `/^\d+(?:\.\d+)?(?:B|KB|MB|GB|TB)$/`. -/
def fileSizeMatch (t : String) : Bool :=
  match chompNumber t.data with
  | some (_, rest) => fileSizeSuffixes.contains rest
  | none => false

/-- Classifier pattern `/^\d+(?:\.\d+)?[hms]$/`. -/
def durationMatch1 (t : String) : Bool :=
  match chompNumber t.data with
  | some (_, rest) => rest == ['h'] || rest == ['m'] || rest == ['s']
  | none => false

/-- Classifier pattern `/^\d+:\d+:\d+$/`. -/
def durationMatch2 (t : String) : Bool :=
  match chompDigits t.data with
  | some (_, ':' :: r1) =>
    (match chompDigits r1 with
     | some (_, ':' :: r2) =>
       (match chompDigits r2 with
        | some (_, rest) => rest == []
        | none => false)
     | _ => false)
  | _ => false

/-- Classifier pattern `/^\d+:\d+$/`. -/
def durationMatch3 (t : String) : Bool :=
  match chompDigits t.data with
  | some (_, ':' :: r1) =>
    (match chompDigits r1 with
     | some (_, rest) => rest == []
     | _ => false)
  | _ => false

/-- The tail `(?:\d+s)?$` of the compound duration patterns. -/
def optSecondsTail (cs : List Char) : Bool :=
  match cs with
  | [] => true
  | _ =>
    match chompDigits cs with
    | some (_, 's' :: rest) => rest == []
    | _ => false

/-- The tail `(?:\d+m)?(?:\d+s)?$` of the compound duration patterns.  The
digits are committed greedily; when the following letter is `s` rather than
`m` the same digits serve the seconds group, exactly as the backtracking
regex behaves. -/
def optMinutesTail (cs : List Char) : Bool :=
  match cs with
  | [] => true
  | _ =>
    match chompDigits cs with
    | some (_, 'm' :: rest) => optSecondsTail rest
    | some (_, 's' :: rest) => rest == []
    | _ => false

/-- Classifier pattern `/^\d+h(?:\d+m)?(?:\d+s)?$/`. -/
def durationMatch4 (t : String) : Bool :=
  match chompDigits t.data with
  | some (_, 'h' :: rest) => optMinutesTail rest
  | _ => false

/-- Classifier pattern `/^\d+m(?:\d+s)?$/`. -/
def durationMatch5 (t : String) : Bool :=
  match chompDigits t.data with
  | some (_, 'm' :: rest) => optSecondsTail rest
  | _ => false

/-- The duration pattern set, in source order. -/
def durationMatches (t : String) : Bool :=
  durationMatch1 t || durationMatch2 t || durationMatch3 t ||
    durationMatch4 t || durationMatch5 t

/-- Classifier pattern `/^\d+x\d+$/`. -/
def resolutionMatch (t : String) : Bool :=
  match chompDigits t.data with
  | some (_, 'x' :: r1) =>
    (match chompDigits r1 with
     | some (_, rest) => rest == []
     | none => false)
  | _ => false

/-- Classifier pattern `/^\d+(?:\.\d+)?fps$/`. -/
def frameRateMatch (t : String) : Bool :=
  match chompNumber t.data with
  | some (_, rest) => rest == "fps".data
  | none => false

/-- Classifier pattern `/^\d+(?:\.\d+)?(?:bps|kbps|Mbps|Gbps|k|M|G)$/`. -/
def bitRateMatch (t : String) : Bool :=
  match chompNumber t.data with
  | some (_, rest) => bitRateSuffixes.contains rest
  | none => false

/-- `ParsedParameters`: the original matched token per parameter kind; a later
token of the same kind overwrites the earlier one. -/
structure Parsed where
  fileSize : Option String := none
  duration : Option String := none
  resolution : Option String := none
  frameRate : Option String := none
  bitRate : Option String := none
deriving DecidableEq

/-- The `{parsed, unknownTokens}` object returned by `parseInputString`. -/
structure ClassifyResult where
  parsed : Parsed
  unknownTokens : List String
deriving DecidableEq

/-- The token filter of `parseInputString`:
`s.length > 0 && !s.startsWith("/")`. -/
def tokenFilter (t : List Char) : Bool :=
  !t.isEmpty && !(t.head? == some '/')

/-- The tokenizer of `parseInputString`: split on the space character
(`input.split(" ")`), trim each fragment, keep nonempty fragments not
starting with `/`. -/
def tokenize (input : String) : List String :=
  (((splitBy (· == ' ') input.data).map jsTrim).filter tokenFilter).map String.mk

/-- One classification step: the token is tested against the pattern set of
each kind in the fixed object-key order fileSize, duration, resolution,
frameRate, bitRate; the first kind that matches stores the token, and a token
matching no kind is appended to the unknown list. -/
def classifyToken (acc : ClassifyResult) (t : String) : ClassifyResult :=
  if fileSizeMatch t then { acc with parsed.fileSize := some t }
  else if durationMatches t then { acc with parsed.duration := some t }
  else if resolutionMatch t then { acc with parsed.resolution := some t }
  else if frameRateMatch t then { acc with parsed.frameRate := some t }
  else if bitRateMatch t then { acc with parsed.bitRate := some t }
  else { acc with unknownTokens := acc.unknownTokens ++ [t] }

/-- `parseInputString`. -/
def parseInputString (input : String) : ClassifyResult :=
  (tokenize input).foldl classifyToken ⟨{}, []⟩

/-- A JavaScript number: an exact finite value, or one of the non-finite
values that arise from division by zero. -/
inductive JSNum where
  | fin : ℚ → JSNum
  | inf : JSNum
  | ninf : JSNum
  | nan : JSNum
deriving DecidableEq

/-- IEEE-754 addition on the extended values (finite arithmetic exact). -/
def jsAdd : JSNum → JSNum → JSNum
  | .fin a, .fin b => .fin (a + b)
  | .nan, _ | _, .nan => .nan
  | .inf, .ninf | .ninf, .inf => .nan
  | .inf, _ | _, .inf => .inf
  | _, _ => .ninf

/-- IEEE-754 multiplication on the extended values (finite arithmetic
exact); an infinity times zero is NaN. -/
def jsMul : JSNum → JSNum → JSNum
  | .fin a, .fin b => .fin (a * b)
  | .nan, _ | _, .nan => .nan
  | .inf, .fin b | .fin b, .inf =>
    if 0 < b then .inf else if b < 0 then .ninf else .nan
  | .ninf, .fin b | .fin b, .ninf =>
    if 0 < b then .ninf else if b < 0 then .inf else .nan
  | .inf, .inf | .ninf, .ninf => .inf
  | .inf, .ninf | .ninf, .inf => .ninf

/-- IEEE-754 division on the extended values (finite arithmetic exact);
a nonzero value over zero is a signed infinity, zero over zero is NaN. -/
def jsDiv : JSNum → JSNum → JSNum
  | .fin a, .fin b =>
    if b ≠ 0 then .fin (a / b)
    else if 0 < a then .inf
    else if a < 0 then .ninf
    else .nan
  | .nan, _ | _, .nan => .nan
  | .fin _, .inf | .fin _, .ninf => .fin 0
  | .inf, .fin b => if 0 ≤ b then .inf else .ninf
  | .ninf, .fin b => if 0 ≤ b then .ninf else .inf
  | _, _ => .nan

/-- The comparison `x < c` against a finite constant; NaN compares false. -/
def jsLt (x : JSNum) (c : ℚ) : Bool :=
  match x with
  | .fin a => decide (a < c)
  | .inf => false
  | .ninf => true
  | .nan => false

/-- The comparison `x >= c` against a finite constant; NaN compares false. -/
def jsGe (x : JSNum) (c : ℚ) : Bool :=
  match x with
  | .fin a => decide (c ≤ a)
  | .inf => true
  | .ninf => false
  | .nan => false

/-- The comparison `x > 0`; NaN compares false. -/
def jsGtZero (x : JSNum) : Bool :=
  match x with
  | .fin a => decide (0 < a)
  | .inf => true
  | .ninf => false
  | .nan => false

/-- `Math.floor`; the floor of a non-finite value is itself. -/
def jsFloor : JSNum → JSNum
  | .fin a => .fin ((Rat.floor a : ℤ) : ℚ)
  | x => x

/-- Truncation toward zero. -/
def ratTrunc (q : ℚ) : ℤ :=
  if 0 ≤ q then Rat.floor q else -(Rat.floor (-q))

/-- The JavaScript remainder `%` (truncated remainder); a zero or non-finite
divisor other than infinity gives NaN, and `x % ±Infinity = x` for finite x. -/
def jsMod : JSNum → JSNum → JSNum
  | .fin a, .fin b =>
    if b = 0 then .nan else .fin (a - b * (ratTrunc (a / b) : ℚ))
  | .fin a, .inf | .fin a, .ninf => .fin a
  | _, _ => .nan

/-- Decimal digit count of a natural number (1 for 0). -/
def decimalDigits (n : ℕ) : ℕ := (Nat.repr n).length

/-- Bounded search for the least `k ≥ 1` with `1 ≤ q * 10 ^ k`, used for the
base-10 exponent of a rational in (0, 1). -/
def ratLog10Neg (q : ℚ) : ℕ → ℕ → ℤ
  | 0, k => -(k : ℤ)
  | fuel + 1, k => if 1 ≤ q * (10 : ℚ) ^ k then -(k : ℤ) else ratLog10Neg q fuel (k + 1)

/-- For `0 < q`, the exponent `e` with `10 ^ e ≤ q < 10 ^ (e + 1)`
(`Math.floor(Math.log10 q)`); for `q < 1` the search depth is bounded by the
size of the denominator, which always suffices since `q ≥ 1 / q.den`. -/
def ratLog10 (q : ℚ) : ℤ :=
  if 1 ≤ q then (decimalDigits (Rat.floor q).toNat : ℤ) - 1
  else ratLog10Neg q (decimalDigits q.den + 1) 1

/-- `10 ^ e` for an integer exponent. -/
def pow10 : ℤ → ℚ
  | .ofNat n => (10 : ℚ) ^ n
  | .negSucc n => 1 / (10 : ℚ) ^ (n + 1)

/-- The rounding of ECMAScript ToPrecision: nearest integer, ties to the
larger candidate. -/
def roundHalfUp (q : ℚ) : ℤ := Rat.floor (q + 1 / 2)

/-- Fixed-notation rendering of three significant digits `n` (`100 ≤ n ≤
999`) at decimal exponent `e ≤ 2`. -/
def fixed3 (n : ℤ) (e : ℤ) : String :=
  let ds := (Nat.repr n.toNat).data
  if e = 2 then String.mk ds
  else if e = 1 then String.mk (ds.take 2 ++ '.' :: ds.drop 2)
  else if e = 0 then String.mk (ds.take 1 ++ '.' :: ds.drop 1)
  else String.mk ('0' :: '.' :: (List.replicate (-(e + 1)).toNat '0' ++ ds))

/-- Exponential-notation rendering of three significant digits at exponent
`e`, as `d.dde±x`. -/
def exp3 (n : ℤ) (e : ℤ) : String :=
  let ds := (Nat.repr n.toNat).data
  String.mk (ds.take 1) ++ "." ++ String.mk (ds.drop 1) ++ "e" ++
    (if e < 0 then "-" else "+") ++ Nat.repr e.natAbs

/-- `Number.prototype.toPrecision(3)` on a positive rational: round to three
significant digits, renormalize when the rounding carries to a fourth digit,
and pick fixed or exponential notation by the ECMAScript rule. -/
def toPrecision3Pos (q : ℚ) : String :=
  let e0 := ratLog10 q
  let n0 := roundHalfUp (q / pow10 (e0 - 2))
  let n := if 1000 ≤ n0 then 100 else n0
  let e := if 1000 ≤ n0 then e0 + 1 else e0
  if e < -6 ∨ 3 ≤ e then exp3 n e else fixed3 n e

/-- `Number.prototype.toPrecision(3)` on a finite value. -/
def toPrecision3 (q : ℚ) : String :=
  if q = 0 then "0.00"
  else if q < 0 then "-" ++ toPrecision3Pos (-q)
  else toPrecision3Pos q

/-- `Number.prototype.toPrecision(3)`. -/
def jsToPrecision3 : JSNum → String
  | .fin q => toPrecision3 q
  | .inf => "Infinity"
  | .ninf => "-Infinity"
  | .nan => "NaN"

deriving instance DecidableEq for Except

/-- The least `k ≥ 1` (up to `fuel`) with `den ∣ 10 ^ k`, for rendering a
terminating decimal. -/
def minPow10Exp (den : ℕ) : ℕ → ℕ → Option ℕ
  | 0, _ => none
  | fuel + 1, k => if 10 ^ k % den = 0 then some k else minPow10Exp den fuel (k + 1)

/-- Default JavaScript number-to-string rendering of a nonnegative rational,
idealized to exact decimal output: integers print as integers, terminating
decimals in full with no trailing zeros.  A value whose decimal expansion
does not terminate within the fuel falls back to a fraction rendering; no
verified claim depends on that case (an IEEE double is always a terminating
decimal). -/
def ratToStringPos (q : ℚ) : String :=
  if q.den = 1 then Nat.repr q.num.toNat
  else
    match minPow10Exp q.den 40 1 with
    | some k =>
      let scaled := q.num.toNat * 10 ^ k / q.den
      let frac := Nat.repr (scaled % 10 ^ k)
      Nat.repr (scaled / 10 ^ k) ++ "." ++
        String.mk (List.replicate (k - frac.length) '0') ++ frac
    | none => Nat.repr q.num.toNat ++ "/" ++ Nat.repr q.den

/-- Default JavaScript number-to-string rendering (template literals). -/
def ratToString (q : ℚ) : String :=
  if q < 0 then "-" ++ ratToStringPos (-q) else ratToStringPos q

/-- Template-literal rendering of a `JSNum`. -/
def jsNumToString : JSNum → String
  | .fin q => ratToString q
  | .inf => "Infinity"
  | .ninf => "-Infinity"
  | .nan => "NaN"

/-- JavaScript `Number(string)` restricted to the plain decimal literals this
program feeds it (the hex, exponent, sign and Infinity forms never arise from
the token grammars): a trimmed empty string is 0, `\d+(\.\d+)?` is its exact
value, anything else is NaN. -/
def jsNumber (s : String) : JSNum :=
  let t := jsTrim s.data
  if t.isEmpty then .fin 0
  else
    match chompNumber t with
    | some (q, []) => .fin q
    | _ => .nan

/-- JavaScript `parseInt(string, 10)` as used here: the value of the leading
digit run after trimming, NaN when there is none (sign forms never arise). -/
def jsParseInt (s : String) : JSNum :=
  match chompDigits (jsTrim s.data) with
  | some (ds, _) => .fin (digitsVal ds)
  | none => .nan

/-- One optional component `(\d+u)?` of the compound duration pattern,
case-insensitively; when the unit letter does not follow the digits the group
matches emptily and consumes nothing (the regex backtracks). -/
def chompUnit (cs : List Char) (u : Char) : ℕ × List Char :=
  match chompDigits cs with
  | some (ds, c :: rest) => if c.toLower = u then (digitsVal ds, rest) else (0, cs)
  | _ => (0, cs)

/-- `parseDuration`: colon forms `mm:ss` and `hh:mm:ss` via `Number` on the
parts (any other part count is null, JavaScript `null` being `none`);
otherwise the unanchored case-insensitive pattern `(\d+h)?(\d+m)?(\d+s)?`,
whose first match always exists (possibly empty) with absent components
contributing 0. -/
def parseDuration (duration : String) : Option JSNum :=
  if duration.data.contains ':' then
    let parts := (splitBy (· == ':') duration.data).map (fun p => jsNumber (String.mk p))
    if parts.length = 2 then
      some (jsAdd (jsMul (parts.getD 0 .nan) (.fin 60)) (parts.getD 1 .nan))
    else if parts.length = 3 then
      some (jsAdd (jsAdd (jsMul (parts.getD 0 .nan) (.fin 3600))
        (jsMul (parts.getD 1 .nan) (.fin 60))) (parts.getD 2 .nan))
    else none
  else
    let (h, r1) := chompUnit duration.data 'h'
    let (m, r2) := chompUnit r1 'm'
    let (s, _) := chompUnit r2 's'
    some (.fin ((h : ℚ) * 3600 + (m : ℚ) * 60 + (s : ℚ)))

/-- The unit group `([TGMK]?B?)` of the file-size regex, case-insensitively:
greedily one of T/G/M/K, then one B. -/
def chompSizeUnit (cs : List Char) : List Char × List Char :=
  match cs with
  | [] => ([], [])
  | c :: rest =>
    if "TGMK".data.contains c.toUpper then
      match rest with
      | [] => ([c], [])
      | b :: rest2 => if b.toUpper = 'B' then ([c, b], rest2) else ([c], rest)
    else if c.toUpper = 'B' then ([c], rest)
    else ([], cs)

/-- The multiplier switch of `parseFileSize` on the uppercased unit; any
other unit string (including the bare prefixes T/G/M/K and the unit of the
binary forms, which the regex truncates to the bare prefix) multiplies by 1. -/
def fileSizeMultiplier (unit : String) : ℚ :=
  if unit = "TB" then 1000000000000
  else if unit = "GB" then 1000000000
  else if unit = "MB" then 1000000
  else if unit = "KB" then 1000
  else 1

/-- The scan of `parseFileSize`: the first match of the unanchored
case-insensitive `/(\d+(\.\d+)?)([TGMK]?B?)/i` begins at the leftmost digit
(the unit group alone may be empty); no digit anywhere means no match. -/
def parseFileSizeCore : List Char → Except String ℚ
  | [] => .error "Invalid file size format."
  | c :: cs =>
    if c.isDigit then
      match chompNumber (c :: cs) with
      | some (size, rest) =>
        .ok (size * fileSizeMultiplier (String.mk ((chompSizeUnit rest).1.map Char.toUpper)))
      | none => .error "Invalid file size format."
    else parseFileSizeCore cs

/-- `parseFileSize`. -/
def parseFileSize (fileSize : String) : Except String ℚ :=
  parseFileSizeCore fileSize.data

/-- `parseBitRate`: the anchored case-sensitive
`/^(\d+(?:\.\d+)?)(bps|kbps|Mbps|Gbps|k|M|G)$/`, then a switch on the
lowercased unit; note that `bps` itself reaches the default case and is
rejected as unsupported. -/
def parseBitRate (bitRate : String) : Except String ℚ :=
  match chompNumber bitRate.data with
  | some (value, rest) =>
    if bitRateSuffixes.contains rest then
      let unit := String.mk (rest.map Char.toLower)
      if unit = "k" ∨ unit = "kb" ∨ unit = "kbps" then .ok (value * 1000)
      else if unit = "m" ∨ unit = "mb" ∨ unit = "mbps" then .ok (value * 1000000)
      else if unit = "g" ∨ unit = "gb" ∨ unit = "gbps" then .ok (value * 1000000000)
      else .error "Unsupported bit rate unit."
    else .error "Invalid bit rate format."
  | none => .error "Invalid bit rate format."

/-- `resolution.split("x").map(Number)` destructured to width and height (a
missing element is `undefined`, whose arithmetic is NaN), times
`parseInt(frameRate.replace("fps", ""), 10)`. -/
def pixelsPerSecond (resolution frameRate : String) : JSNum :=
  let parts := (splitBy (· == 'x') resolution.data).map (fun p => jsNumber (String.mk p))
  let width := parts.getD 0 .nan
  let height := parts.getD 1 .nan
  let fps := jsParseInt (String.mk (removeFirst "fps".data frameRate.data))
  jsMul (jsMul width height) fps

/-- `calculateBitRate`: `rate = fileSizeBytes * 8 / duration`, scaled to
Mbps/kbps/bps with three significant digits, with a bits-per-pixel suffix
when resolution and frame rate are both present (and truthy) and the
bits-per-pixel value compares greater than zero. -/
def calculateBitRate (fileSize : String) (duration : ℚ)
    (resolution frameRate : Option String) : Except String String := do
  let sizeBytes ← parseFileSize fileSize
  let sizeInBits : ℚ := sizeBytes * 8
  let bitRate := jsDiv (.fin sizeInBits) (.fin duration)
  let bitsPerPixel :=
    match resolution, frameRate with
    | some r, some f =>
      if !r.data.isEmpty && !f.data.isEmpty then jsDiv bitRate (pixelsPerSecond r f)
      else JSNum.fin 0
    | _, _ => JSNum.fin 0
  let result :=
    if jsGe bitRate 1000000 then jsToPrecision3 (jsDiv bitRate (.fin 1000000)) ++ " Mbps"
    else if jsGe bitRate 1000 then jsToPrecision3 (jsDiv bitRate (.fin 1000)) ++ " kbps"
    else jsToPrecision3 bitRate ++ " bps"
  return result ++
    (if jsGtZero bitsPerPixel then " (" ++ jsToPrecision3 bitsPerPixel ++ " bits/pixel)"
     else "")

/-- The rendering tail of `calculateFileSize`: the computed quantity is
compared against decimal byte thresholds and rendered on the byte scale. -/
def renderFileSize (fileSize : JSNum) : String :=
  if jsLt fileSize 1000 then jsNumToString fileSize ++ " bytes"
  else if jsLt fileSize 1000000 then jsToPrecision3 (jsDiv fileSize (.fin 1000)) ++ " kB"
  else if jsLt fileSize 1000000000 then
    jsToPrecision3 (jsDiv fileSize (.fin 1000000)) ++ " MB"
  else if jsLt fileSize 1000000000000 then
    jsToPrecision3 (jsDiv fileSize (.fin 1000000000)) ++ " GB"
  else jsToPrecision3 (jsDiv fileSize (.fin 1000000000000)) ++ " TB"

/-- The quantity computed by `calculateFileSize`: `rate * duration` (a bit
count — the source never divides by 8), recomputed through bits-per-pixel
times pixel rate times duration when resolution and frame rate are both
present and truthy. -/
def fileSizeQuantity (rateInBits duration : ℚ) :
    Option String → Option String → JSNum
  | some r, some f =>
    if !r.data.isEmpty && !f.data.isEmpty then
      let pps := pixelsPerSecond r f
      let bitsPerPixel := jsDiv (.fin rateInBits) pps
      jsMul (jsMul bitsPerPixel pps) (.fin duration)
    else .fin (rateInBits * duration)
  | _, _ => .fin (rateInBits * duration)

/-- `calculateFileSize`. -/
def calculateFileSize (bitRate : String) (duration : ℚ)
    (resolution frameRate : Option String) : Except String String := do
  let rateInBits ← parseBitRate bitRate
  return renderFileSize (fileSizeQuantity rateInBits duration resolution frameRate)

/-- `calculateDuration`: `seconds = fileSizeBits / bitRateBits`, rendered as
`(hh:mm:ss)`, `(mm:ss)` or raw `(s)`; the resolution/frameRate block in the
source only computes locals that are never used, so it contributes nothing. -/
def calculateDuration (fileSize bitRate : String)
    (_resolution _frameRate : Option String) : Except String String := do
  let sizeBytes ← parseFileSize fileSize
  let rateInBits ← parseBitRate bitRate
  let duration := jsDiv (.fin (sizeBytes * 8)) (.fin rateInBits)
  if jsGe duration 3600 then
    let hours := jsFloor (jsDiv duration (.fin 3600))
    let minutes := jsFloor (jsDiv (jsMod duration (.fin 3600)) (.fin 60))
    let seconds := jsFloor (jsMod duration (.fin 60))
    return "(hh:mm:ss): " ++ jsNumToString hours ++ ":" ++ jsNumToString minutes ++
      ":" ++ jsNumToString seconds
  else if jsGe duration 60 then
    let minutes := jsFloor (jsDiv duration (.fin 60))
    let seconds := jsFloor (jsMod duration (.fin 60))
    return "(mm:ss): " ++ jsNumToString minutes ++ ":" ++ jsNumToString seconds
  else
    return "(s): " ++ jsNumToString duration

/-- The `{input, output}` pair returned by `parseInput`. -/
structure CalculationResult where
  input : String
  output : String
deriving DecidableEq

def requiredKeys : List String := ["bitRate", "duration", "fileSize"]

/-- `requiredKeys.filter(key => !(key in parsed))`. -/
def missingKeys (p : Parsed) : List String :=
  requiredKeys.filter fun k =>
    if k = "bitRate" then p.bitRate.isNone
    else if k = "duration" then p.duration.isNone
    else if k = "fileSize" then p.fileSize.isNone
    else false

/-- JavaScript falsiness of the `number | null` returned by `parseDuration`
(null, 0 and NaN are all falsy). -/
def durationFalsy : Option JSNum → Bool
  | none => true
  | some (.fin q) => decide (q = 0)
  | some .nan => true
  | some .inf => false
  | some .ninf => false

/-- The finite value of a truthy parsed duration. -/
def durationValue : Option JSNum → ℚ
  | some (.fin q) => q
  | _ => 0

/-- The throwing body of `parseInput`; every `throw new Error(msg)` of the
source is `Except.error msg`.  The two `"Cannot read..."` arms are
unreachable: they would need two of the three required parameters missing,
which the missing-count check has already excluded. -/
def parseInputE (input : String) : Except String String :=
  let r := parseInputString input
  if 0 < r.unknownTokens.length then
    .error ("Unknown tokens: " ++ joinComma r.unknownTokens)
  else if (missingKeys r.parsed).length ≠ 1 then
    .error "Invalid input. Provide at least two parameters to calculate the missing value."
  else
    match r.parsed.duration with
    | none =>
      match r.parsed.fileSize, r.parsed.bitRate with
      | some fs, some br =>
        (calculateDuration fs br r.parsed.resolution r.parsed.frameRate).map
          (fun s => "Duration " ++ s)
      | _, _ => .error "Cannot read properties of undefined"
    | some dTok =>
      let ds := parseDuration dTok
      if durationFalsy ds then .error ("Invalid duration format " ++ dTok)
      else
        let durationInSeconds := durationValue ds
        match r.parsed.bitRate with
        | none =>
          match r.parsed.fileSize with
          | some fs =>
            (calculateBitRate fs durationInSeconds r.parsed.resolution
                r.parsed.frameRate).map (fun s => "Bit rate: " ++ s)
          | none => .error "Cannot read properties of undefined"
        | some br =>
          match r.parsed.fileSize with
          | none =>
            (calculateFileSize br durationInSeconds none none).map
              (fun s => "File size: " ++ s)
          | some _ => .error "All values were provided. Nothing to calculate."

/-- `parseInput`: the outer try/catch renders a thrown `Error` as
`"Error: " ++ message` on the output field, always paired with the original
input line. -/
def parseInput (input : String) : CalculationResult :=
  match parseInputE input with
  | .ok output => ⟨input, output⟩
  | .error e => ⟨input, "Error: " ++ e⟩

/-- The tokenizer as the spec describes it: split on whitespace (each
whitespace character separates), trim, discard empty fragments and fragments
beginning with "/". -/
def specSplitTokens (input : String) : List String :=
  (((splitBy Char.isWhitespace input.data).map jsTrim).filter tokenFilter).map String.mk

example : parseInputString "500MB" = ⟨{ fileSize := some "500MB" }, []⟩ := by
  with_unfolding_all rfl

example : parseInputString "1h30m20s" = ⟨{ duration := some "1h30m20s" }, []⟩ := by
  with_unfolding_all rfl

example : parseInputString "unknown" = ⟨{}, ["unknown"]⟩ := by
  with_unfolding_all rfl

example : parseInputString "1.5Mbps" = ⟨{ bitRate := some "1.5Mbps" }, []⟩ := by
  with_unfolding_all rfl

example : parseInputString "1920x1080 25fps" =
    ⟨{ resolution := some "1920x1080", frameRate := some "25fps" }, []⟩ := by
  with_unfolding_all rfl

example : toPrecision3 (7000 / 9) = "778" := by with_unfolding_all rfl
example : toPrecision3 (5599999944 / 1000000000) = "5.60" := by with_unfolding_all rfl
example : toPrecision3 60 = "60.0" := by with_unfolding_all rfl
example : toPrecision3 (778 / 1000) = "0.778" := by with_unfolding_all rfl
example : toPrecision3 (9999 / 10) = "1.00e+3" := by with_unfolding_all rfl
example : toPrecision3 0 = "0.00" := by with_unfolding_all rfl

example : parseDuration "00:30" = some (.fin 30) := by with_unfolding_all rfl
example : parseDuration "01:01:01" = some (.fin 3661) := by with_unfolding_all rfl
example : parseDuration "1h30m" = some (.fin 5400) := by with_unfolding_all rfl
example : parseDuration "90m" = some (.fin 5400) := by with_unfolding_all rfl
example : parseDuration "45seconds" = some (.fin 45) := by with_unfolding_all rfl
example : parseDuration "1:2:3:4" = none := by with_unfolding_all rfl
example : parseFileSize "1.5GB" = .ok 1500000000 := by with_unfolding_all rfl
example : parseFileSize "500B" = .ok 500 := by with_unfolding_all rfl
example : parseFileSize "foobar" = .error "Invalid file size format." := by
  with_unfolding_all rfl
example : parseFileSize "200kg" = .ok 200 := by with_unfolding_all rfl
example : parseBitRate "2.5Mbps" = .ok 2500000 := by with_unfolding_all rfl
example : parseBitRate "1G" = .ok 1000000000 := by with_unfolding_all rfl
example : parseBitRate "100bps" = .error "Unsupported bit rate unit." := by
  with_unfolding_all rfl
example : parseBitRate "invalid" = .error "Invalid bit rate format." := by
  with_unfolding_all rfl

example : parseInput "00:02:00 10MB" = ⟨"00:02:00 10MB", "Bit rate: 667 kbps"⟩ := by
  with_unfolding_all rfl

example : parseInput "500kbps 00:02:00" = ⟨"500kbps 00:02:00", "File size: 60.0 MB"⟩ := by
  with_unfolding_all rfl

example : parseInput "500kbps 10MB" =
    ⟨"500kbps 10MB", "Duration (mm:ss): 2:40"⟩ := by
  with_unfolding_all rfl

example : parseInput "700MB 777.77777kbps" =
    ⟨"700MB 777.77777kbps", "Duration (hh:mm:ss): 2:0:0"⟩ := by
  with_unfolding_all rfl

theorem strAppend_assoc (a b c : String) : a ++ b ++ c = a ++ (b ++ c) := by
  apply String.ext
  simp [String.data_append, List.append_assoc]

/-- C1: for every input string, `parseInput` is total (a Lean function), its
result's `input` field is the raw line unchanged, and on every failure path —
every input on which the throwing body produces an error — the `output`
field is exactly `"Error: "` followed by the error message. -/
theorem c1_parseInput_total_and_error_shape (input : String) :
    (parseInput input).input = input ∧
    ∀ e, parseInputE input = Except.error e →
      (parseInput input).output = "Error: " ++ e := by
  refine ⟨?_, ?_⟩
  · unfold parseInput
    cases parseInputE input <;> rfl
  · intro e h
    unfold parseInput
    rw [h]

/-- Witness for C1 at the concrete failing input "10X". -/
theorem c1_witness :
    (parseInput "10X").input = "10X" ∧
    (parseInput "10X").output = "Error: " ++ "Unknown tokens: 10X" :=
  ⟨(c1_parseInput_total_and_error_shape "10X").1,
   (c1_parseInput_total_and_error_shape "10X").2 "Unknown tokens: 10X"
     (by with_unfolding_all rfl)⟩

/-- C2 (code differs from claim and from the repository's own test): with no
unknown tokens and a missing-parameter count different from one, the source
throws "Invalid input. Provide at least two parameters to calculate the
missing value.", not "Provide only two parameters to calculate the missing
value."; evaluated at the test input "500kbps". -/
theorem c2_missing_count_message :
    parseInput "500kbps" =
      ⟨"500kbps",
       "Error: Invalid input. Provide at least two parameters to calculate the missing value."⟩ ∧
    parseInput "500kbps" ≠
      ⟨"500kbps", "Error: Provide only two parameters to calculate the missing value."⟩ :=
  ⟨by with_unfolding_all rfl, of_decide_eq_false (by with_unfolding_all rfl)⟩

/-- C3 (code differs from claim and from the repository's own test): on
"500kbps 00:02:00 10MB" all three required parameters are present, so the
missing-count check fires first with its own message; the "All values were
provided" throw is unreachable. -/
theorem c3_all_values_provided_message :
    parseInput "500kbps 00:02:00 10MB" =
      ⟨"500kbps 00:02:00 10MB",
       "Error: Invalid input. Provide at least two parameters to calculate the missing value."⟩ ∧
    parseInput "500kbps 00:02:00 10MB" ≠
      ⟨"500kbps 00:02:00 10MB", "Error: All values were provided. Nothing to calculate."⟩ :=
  ⟨by with_unfolding_all rfl, of_decide_eq_false (by with_unfolding_all rfl)⟩

/-- C4 (code differs from claim and from the repository's own test): the
classifier has no binary-unit pattern, so "700MiB" is an unknown token and
"700MiB 2h" reports it instead of a bit rate; and `parseFileSize` reads
"1MiB" as the number 1 with bare unit "M" (multiplier 1), not 2^20 bytes. -/
theorem c4_no_binary_units :
    parseInput "700MiB 2h" = ⟨"700MiB 2h", "Error: Unknown tokens: 700MiB"⟩ ∧
    parseFileSize "1MiB" = .ok 1 ∧
    parseFileSize "1MiB" ≠ .ok 1048576 :=
  ⟨by with_unfolding_all rfl, by with_unfolding_all rfl,
   of_decide_eq_false (by with_unfolding_all rfl)⟩

/-- C5 (third part differs from claim and from the repository's own test):
the colon forms evaluate as claimed, but on "invalid" the all-optional
pattern `(\d+h)?(\d+m)?(\d+s)?` matches the empty string, so the result is
0 seconds, not null. -/
theorem c5_parseDuration_values :
    parseDuration "01:01:01" = some (.fin 3661) ∧
    parseDuration "1h30m20s" = some (.fin 5420) ∧
    parseDuration "invalid" = some (.fin 0) ∧
    parseDuration "invalid" ≠ none :=
  ⟨by with_unfolding_all rfl, by with_unfolding_all rfl, by with_unfolding_all rfl,
   of_decide_eq_false (by with_unfolding_all rfl)⟩

/-- C7 (second part differs from claim and from the repository's own test):
the bit-rate direction gives "778 kbps" as claimed, but `calculateFileSize`
multiplies rate by duration without dividing by 8 and renders the bit count
on the byte scale: 777.77777 kbps times 7200 s shows as "5.60 GB", not
"700 MB". -/
theorem c7_sample_calculations :
    parseInput "700MB 2h" = ⟨"700MB 2h", "Bit rate: 778 kbps"⟩ ∧
    parseInput "777.77777kbps 2h" = ⟨"777.77777kbps 2h", "File size: 5.60 GB"⟩ ∧
    parseInput "777.77777kbps 2h" ≠ ⟨"777.77777kbps 2h", "File size: 700 MB"⟩ :=
  ⟨by with_unfolding_all rfl, by with_unfolding_all rfl,
   of_decide_eq_false (by with_unfolding_all rfl)⟩

/-- C6: whenever classification leaves at least one unknown token, the output
is exactly "Error: Unknown tokens: " followed by the unknown tokens
comma-joined in input order — no resolution or calculation happens — and in
particular "10X 20Y" reports both tokens. -/
theorem c6_unknown_tokens_error :
    (∀ input : String, (parseInputString input).unknownTokens ≠ [] →
      (parseInput input).output =
        "Error: Unknown tokens: " ++ joinComma (parseInputString input).unknownTokens) ∧
    parseInput "10X 20Y" = ⟨"10X 20Y", "Error: Unknown tokens: 10X, 20Y"⟩ := by
  constructor
  · intro input h
    have hlen : 0 < (parseInputString input).unknownTokens.length :=
      List.length_pos.mpr h
    have he : parseInputE input =
        .error ("Unknown tokens: " ++ joinComma (parseInputString input).unknownTokens) := by
      unfold parseInputE
      simp only [if_pos hlen]
    unfold parseInput
    rw [he]
    show "Error: " ++ ("Unknown tokens: " ++ _) = "Error: Unknown tokens: " ++ _
    rw [← strAppend_assoc]
    congr 1
  · with_unfolding_all rfl

/-- Witness for C6 at the concrete input "10X 20Y". -/
theorem c6_witness :
    (parseInput "10X 20Y").output =
      "Error: Unknown tokens: " ++ joinComma (parseInputString "10X 20Y").unknownTokens :=
  c6_unknown_tokens_error.1 "10X 20Y" (of_decide_eq_false (by with_unfolding_all rfl))

/-- C10: an input line with no unknown tokens, a duration token present,
exactly one of the three required parameters missing, and a duration that
parses to 0 seconds (for example "0s" or "00:00") is rejected with
"Error: Invalid duration format <token>", exactly as an unparseable duration
would be: a zero duration can never reach a calculation. -/
theorem c10_zero_duration_rejected (input dTok : String)
    (hu : (parseInputString input).unknownTokens = [])
    (hm : (missingKeys (parseInputString input).parsed).length = 1)
    (hd : (parseInputString input).parsed.duration = some dTok)
    (hz : parseDuration dTok = some (JSNum.fin 0)) :
    (parseInput input).output = "Error: Invalid duration format " ++ dTok := by
  have he : parseInputE input = .error ("Invalid duration format " ++ dTok) := by
    unfold parseInputE
    simp only [hu, hm, hd, hz, List.length_nil, durationFalsy]
    norm_num
  unfold parseInput
  rw [he]
  show "Error: " ++ ("Invalid duration format " ++ _) = "Error: Invalid duration format " ++ _
  rw [← strAppend_assoc]
  congr 1

/-- Witness for C10 at the concrete input "0s 10MB". -/
theorem c10_witness :
    (parseInput "0s 10MB").output = "Error: Invalid duration format " ++ "0s" :=
  c10_zero_duration_rejected "0s 10MB" "0s"
    (by with_unfolding_all rfl) (by with_unfolding_all rfl)
    (by with_unfolding_all rfl) (by with_unfolding_all rfl)

theorem jsMul_nan_left (x : JSNum) : jsMul .nan x = .nan := by
  cases x <;> rfl

theorem jsMul_nan_right (x : JSNum) : jsMul x .nan = .nan := by
  cases x <;> rfl

/-- An empty resolution string yields NaN pixels per second (its height is
`undefined`). -/
theorem pixelsPerSecond_res_empty (res fr : String) (h : res.data = []) :
    pixelsPerSecond res fr = .nan := by
  unfold pixelsPerSecond
  rw [h]
  show jsMul (jsMul (jsNumber (String.mk [])) .nan) _ = .nan
  rw [show jsMul (jsNumber (String.mk [])) JSNum.nan = .nan from rfl]
  exact jsMul_nan_left _

/-- An empty frame-rate string yields NaN pixels per second (`parseInt` of an
empty string is NaN). -/
theorem pixelsPerSecond_fr_empty (res fr : String) (h : fr.data = []) :
    pixelsPerSecond res fr = .nan := by
  unfold pixelsPerSecond
  rw [h]
  exact jsMul_nan_right _

/-- C8 counterexample: with the grammar-valid refiners "0x0" and "0fps" the
pixel rate is zero, the bits-per-pixel division is by zero, and the recomputed
quantity is NaN ("NaN TB"), while the plain product renders "60.0 MB": the
two calls differ. -/
theorem c8_counterexample :
    calculateFileSize "500kbps" 120 (some "0x0") (some "0fps") ≠
      calculateFileSize "500kbps" 120 none none :=
  of_decide_eq_false (by with_unfolding_all rfl)

/-- C8 amended: whenever the resolution and frame-rate tokens produce a
finite nonzero pixels-per-second value, the bits-per-pixel recomputation of
`calculateFileSize` is algebraically identical to the plain product — the
exact value of `(rate / pps) * pps * duration` is `rate * duration`, the
exact value of the unrefined quantity.  This is an equivalence of the
source's formulas, not of the executed double-precision strings: IEEE-754
rounding of the intermediate division and multiplication, which this
rational model does not track, can still perturb the rendered result (for
example at rate 1 bps and pixel rate 49 the double recomputation is one ulp
below 1), and with a zero pixel rate the recomputation is NaN and the calls
differ outright (see the counterexample). -/
theorem c8_refinement_algebraic (rate d : ℚ) (res fr : String) (p : ℚ)
    (hp : pixelsPerSecond res fr = .fin p) (hpz : p ≠ 0) :
    fileSizeQuantity rate d (some res) (some fr) = .fin (rate * d) ∧
    fileSizeQuantity rate d none none = .fin (rate * d) := by
  have hres : res.data.isEmpty = false := by
    cases hres : res.data.isEmpty
    · rfl
    · exfalso
      have hnil : res.data = [] := by
        cases hd : res.data
        · rfl
        · rw [hd] at hres; exact absurd hres (by simp [List.isEmpty])
      rw [pixelsPerSecond_res_empty res fr hnil] at hp
      exact JSNum.noConfusion hp
  have hfr : fr.data.isEmpty = false := by
    cases hfrb : fr.data.isEmpty
    · rfl
    · exfalso
      have hnil : fr.data = [] := by
        cases hd : fr.data
        · rfl
        · rw [hd] at hfrb; exact absurd hfrb (by simp [List.isEmpty])
      rw [pixelsPerSecond_fr_empty res fr hnil] at hp
      exact JSNum.noConfusion hp
  refine ⟨?_, rfl⟩
  simp only [fileSizeQuantity]
  rw [hres, hfr, hp]
  simp only [Bool.not_false, Bool.and_self, if_true, jsDiv, hpz, ne_eq,
    not_false_eq_true, if_pos, jsMul]
  rw [div_mul_cancel₀ _ hpz]

/-- Witness for C8 amended at rate 500000, duration 120, 1920x1080, 25fps. -/
theorem c8_witness :
    fileSizeQuantity 500000 120 (some "1920x1080") (some "25fps") =
      .fin (500000 * 120) ∧
    fileSizeQuantity 500000 120 none none = .fin (500000 * 120) :=
  c8_refinement_algebraic 500000 120 "1920x1080" "25fps" 51840000
    (by with_unfolding_all rfl) (by norm_num)

theorem splitBy_congr (p q : Char → Bool) :
    ∀ l : List Char, (∀ c ∈ l, p c = q c) → splitBy p l = splitBy q l := by
  intro l
  induction l with
  | nil => intro _; rfl
  | cons c cs ih =>
    intro h
    have hc : p c = q c := h c (List.mem_cons_self c cs)
    have ih' := ih (fun d hd => h d (List.mem_cons_of_mem c hd))
    simp only [splitBy, hc, ih']

theorem dropWhile_idem (p : Char → Bool) (l : List Char) :
    (l.dropWhile p).dropWhile p = l.dropWhile p := by
  induction l with
  | nil => rfl
  | cons c cs ih =>
    by_cases h : p c
    · simp [List.dropWhile_cons, h, ih]
    · simp [List.dropWhile_cons, h]

/-- When a list has no leading whitespace-like character, stripping trailing
ones leaves the front stripped as well. -/
theorem dropWhile_trimRight (w : Char → Bool) (l : List Char)
    (h : l.dropWhile w = l) :
    ((l.reverse.dropWhile w).reverse).dropWhile w = (l.reverse.dropWhile w).reverse := by
  cases l with
  | nil => rfl
  | cons a as =>
    have ha : w a = false := by
      by_contra hw
      simp only [Bool.not_eq_false] at hw
      have hlen := congrArg List.length h
      rw [List.dropWhile_cons, if_pos hw] at hlen
      have hle := (List.dropWhile_suffix w : as.dropWhile w <:+ as).length_le
      simp only [List.length_cons] at hlen
      omega
    cases hs : (a :: as).reverse.dropWhile w with
    | nil => rfl
    | cons b bs =>
      have hsuf : (b :: bs) <:+ (a :: as).reverse := hs ▸ List.dropWhile_suffix w
      obtain ⟨t, ht⟩ := hsuf
      have hlast : (b :: bs).getLast? = some a := by
        have h1 : (t ++ (b :: bs)).getLast? = (b :: bs).getLast? :=
          List.getLast?_append_of_ne_nil _ (by simp)
        rw [ht, List.getLast?_reverse] at h1
        exact h1.symm
      have hhead : ((b :: bs).reverse).head? = some a := by
        rw [List.head?_reverse]; exact hlast
      cases hrv : (b :: bs).reverse with
      | nil => simp at hrv
      | cons x xs =>
        rw [hrv] at hhead
        have hx : x = a := by simpa using hhead
        rw [List.dropWhile_cons, hx, ha]
        simp

/-- JavaScript trim is idempotent. -/
theorem jsTrim_idem (l : List Char) : jsTrim (jsTrim l) = jsTrim l := by
  unfold jsTrim
  have hA : (l.dropWhile Char.isWhitespace).dropWhile Char.isWhitespace
      = l.dropWhile Char.isWhitespace := dropWhile_idem _ _
  have hB := dropWhile_trimRight Char.isWhitespace (l.dropWhile Char.isWhitespace) hA
  rw [hB, List.reverse_reverse, dropWhile_idem]

/-- C9 counterexample: the source splits on the space character only, so a
tab directly between the two parameters does not separate them and the line
classifies differently from its space-separated form. -/
theorem c9_counterexample :
    parseInputString "700MB\t2h" ≠ parseInputString "700MB 2h" :=
  of_decide_eq_false (by with_unfolding_all rfl)

/-- C9 amended: the tokenizer splits on the space character (not on all
whitespace), trims each fragment, and discards empty fragments and fragments
beginning with "/"; on lines whose only whitespace is the space character it
agrees with the spec's split-on-whitespace description, and `parseInputString`
classifies exactly the resulting tokens. -/
theorem c9_tokenizer_space_only :
    (∀ input : String, (∀ c ∈ input.data, c.isWhitespace → c = ' ') →
      specSplitTokens input = tokenize input) ∧
    (∀ input : String, ∀ t ∈ tokenize input,
      t.data ≠ [] ∧ t.data.head? ≠ some '/' ∧ jsTrim t.data = t.data) ∧
    (∀ input : String,
      parseInputString input = (tokenize input).foldl classifyToken ⟨{}, []⟩) := by
  refine ⟨?_, ?_, fun _ => rfl⟩
  · intro input h
    unfold specSplitTokens tokenize
    rw [splitBy_congr Char.isWhitespace (· == ' ') input.data ?_]
    intro c hc
    by_cases hsp : c = ' '
    · subst hsp; decide
    · cases hw : c.isWhitespace
      · simp [hsp]
      · exact absurd (h c hc hw) hsp
  · intro input t ht
    unfold tokenize at ht
    obtain ⟨t', ht', rfl⟩ := List.mem_map.mp ht
    have hf := (List.mem_filter.mp ht').2
    obtain ⟨raw, _hraw, rfl⟩ := List.mem_map.mp (List.mem_filter.mp ht').1
    unfold tokenFilter at hf
    simp only [Bool.and_eq_true, Bool.not_eq_true'] at hf
    refine ⟨?_, ?_, jsTrim_idem raw⟩
    · intro hnil
      rw [show (String.mk (jsTrim raw)).data = jsTrim raw from rfl] at hnil
      rw [hnil] at hf
      simp [List.isEmpty] at hf
    · intro hslash
      rw [show (String.mk (jsTrim raw)).data = jsTrim raw from rfl] at hslash
      rw [hslash] at hf
      simp at hf

/-- Witness for C9 amended at the concrete line "700MB 2h" and its token
"700MB". -/
theorem c9_witness :
    specSplitTokens "700MB 2h" = tokenize "700MB 2h" ∧
    ("700MB".data ≠ [] ∧ "700MB".data.head? ≠ some '/' ∧
      jsTrim "700MB".data = "700MB".data) :=
  ⟨c9_tokenizer_space_only.1 "700MB 2h" (by decide),
   c9_tokenizer_space_only.2.1 "700MB 2h" "700MB"
     (of_decide_eq_true (by with_unfolding_all rfl))⟩
